import Mathlib

set_option maxHeartbeats 1000000

namespace AMS

/-- Roles from accounts.models.User.ROLE_CHOICES. -/
inductive Role where
  | landlord
  | caretaker
  | tenant
  | agent
deriving DecidableEq

/-- accounts.models.User, restricted to the fields the authorization and
audience-resolution logic reads. -/
structure User where
  id : Nat
  role : Role
  is_active : Bool
deriving DecidableEq

/-- accounts.models.User.is_landlord. -/
def User.is_landlord (u : User) : Bool := u.role == .landlord

/-- accounts.models.User.is_caretaker. -/
def User.is_caretaker (u : User) : Bool := u.role == .caretaker

/-- accounts.models.User.is_tenant. -/
def User.is_tenant (u : User) : Bool := u.role == .tenant

/-- accounts.models.User.is_agent. -/
def User.is_agent (u : User) : Bool := u.role == .agent

/-- properties.models.Property: owner and managing caretakers, by user id. -/
structure Property where
  id : Nat
  landlord : Nat
  caretakers : List Nat
deriving DecidableEq

/-- properties.models.Unit.UNIT_STATUS_CHOICES. -/
inductive UnitStatus where
  | available
  | occupied
  | maintenance
  | reserved
deriving DecidableEq

/-- properties.models.Unit: the containing property is dereferenced inline,
the assigned tenant is an optional user id. -/
structure Unit where
  id : Nat
  property : Property
  tenant : Option Nat
  rent_amount : Int
  status : UnitStatus
deriving DecidableEq

/-- payments.models.Payment.PAYMENT_STATUS. -/
inductive PaymentStatus where
  | pending
  | processing
  | completed
  | failed
  | cancelled
  | refunded
deriving DecidableEq

/-- payments.models.Payment, restricted to the fields the permission checks and
the balance computation read. -/
structure Payment where
  id : Nat
  tenant : Nat
  unit : Unit
  amount : Int
  status : PaymentStatus
  payment_month : Option Nat
  payment_year : Option Nat
deriving DecidableEq

/-- notices.models.Notice.AUDIENCE_TYPES. -/
inductive AudienceType where
  | all_tenants
  | property
  | unit
  | individual
  | caretakers
  | custom
deriving DecidableEq

/-- notices.models.Notice, restricted to targeting, publication and tracking
fields.  Target references are dereferenced inline; target_user and the
custom_recipients set are user ids.  Timestamps are naturals. -/
structure Notice where
  id : Nat
  audience_type : AudienceType
  target_property : Option Property
  target_unit : Option Unit
  target_user : Option Nat
  custom_recipients : List Nat
  is_published : Bool
  publish_date : Nat
  expiry_date : Option Nat
  created_by : Nat
deriving DecidableEq

/-- The queryable store: the user, unit and payment tables, each kept in the
order Django would enumerate them (Unit ordering is by property and
unit_number, which is the order used by assigned_unit.first()). -/
structure DB where
  users : List User
  units : List Unit
  payments : List Payment
deriving DecidableEq

/-- notices.models.Notice.get_recipients: the rows of the user table contained
in the queryset the method returns, per audience_type.  Absent target
references fall through to User.objects.none(). -/
def Notice.get_recipients (db : DB) (n : Notice) : List User :=
  match n.audience_type with
  | .all_tenants =>
      db.users.filter (fun u => u.role == .tenant && u.is_active)
  | .property =>
      match n.target_property with
      | some p =>
          db.users.filter (fun u =>
            u.role == .tenant
            && db.units.any (fun un => un.tenant == some u.id && un.property.id == p.id)
            && u.is_active)
      | none => []
  | .unit =>
      match n.target_unit with
      | some un =>
          match un.tenant with
          | some t => db.users.filter (fun u => u.id == t)
          | none => []
      | none => []
  | .individual =>
      match n.target_user with
      | some t => db.users.filter (fun u => u.id == t)
      | none => []
  | .caretakers =>
      db.users.filter (fun u => u.role == .caretaker && u.is_active)
  | .custom =>
      db.users.filter (fun u => n.custom_recipients.contains u.id && u.is_active)

/-- Django membership test `user in queryset` on the recipients queryset:
model instances compare by primary key. -/
def Notice.has_recipient (db : DB) (n : Notice) (user : User) : Bool :=
  (n.get_recipients db).any (fun u => u.id == user.id)

/-- properties.permissions.PropertyPermission.has_permission (authenticated
request assumed). -/
def PropertyPermission.has_permission (user : User) : Bool :=
  user.role == .landlord || user.role == .caretaker

/-- properties.permissions.PropertyPermission.has_object_permission. -/
def PropertyPermission.has_object_permission (user : User) (obj : Property) : Bool :=
  if user.is_landlord then obj.landlord == user.id
  else if user.is_caretaker then obj.caretakers.contains user.id
  else false

/-- properties.permissions.UnitPermission.has_permission. -/
def UnitPermission.has_permission (user : User) : Bool :=
  user.role == .landlord || user.role == .caretaker || user.role == .tenant

/-- properties.permissions.UnitPermission.has_object_permission; `safe` is
whether the request method is in SAFE_METHODS. -/
def UnitPermission.has_object_permission (user : User) (safe : Bool) (obj : Unit) : Bool :=
  if user.is_landlord then obj.property.landlord == user.id
  else if user.is_caretaker then obj.property.caretakers.contains user.id
  else if user.is_tenant then
    if safe then obj.tenant == some user.id else false
  else false

/-- payments.permissions.PaymentPermission.has_permission. -/
def PaymentPermission.has_permission (user : User) : Bool :=
  user.role == .landlord || user.role == .caretaker || user.role == .tenant

/-- payments.permissions.PaymentPermission.has_object_permission. -/
def PaymentPermission.has_object_permission (user : User) (safe : Bool) (obj : Payment) : Bool :=
  if user.is_landlord then obj.unit.property.landlord == user.id
  else if user.is_caretaker then obj.unit.property.caretakers.contains user.id
  else if user.is_tenant then
    if safe then obj.tenant == user.id else false
  else false

/-- notices.permissions.NoticePermission.has_permission. -/
def NoticePermission.has_permission (user : User) : Bool :=
  user.role == .landlord || user.role == .caretaker || user.role == .tenant

/-- The landlord block of notices.permissions.NoticePermission
.has_object_permission, including its fall-through to False.  The individual
branch uses assigned_unit.first(), i.e. the first row of the unit table whose
tenant is the target user. -/
def NoticePermission.landlord_check (db : DB) (user : User) (obj : Notice) : Bool :=
  if obj.created_by == user.id then true
  else
    match obj.audience_type, obj.target_property, obj.target_unit, obj.target_user with
    | .property, some p, _, _ => p.landlord == user.id
    | .unit, _, some un, _ => un.property.landlord == user.id
    | .individual, _, _, some t =>
        match db.units.find? (fun un => un.tenant == some t) with
        | some tenant_unit => tenant_unit.property.landlord == user.id
        | none => false
    | .all_tenants, _, _, _ => obj.created_by == user.id
    | _, _, _, _ => false

/-- The caretaker block of notices.permissions.NoticePermission
.has_object_permission, including its fall-through to False. -/
def NoticePermission.caretaker_check (user : User) (obj : Notice) : Bool :=
  if obj.created_by == user.id then true
  else
    match obj.audience_type, obj.target_property, obj.target_unit with
    | .property, some p, _ => p.caretakers.contains user.id
    | .unit, _, some un => un.property.caretakers.contains user.id
    | _, _, _ => false

/-- notices.permissions.NoticePermission.has_object_permission. -/
def NoticePermission.has_object_permission (db : DB) (user : User) (safe : Bool) (obj : Notice) : Bool :=
  if user.is_tenant then
    if safe then obj.has_recipient db user else false
  else if user.is_landlord then NoticePermission.landlord_check db user obj
  else if user.is_caretaker then NoticePermission.caretaker_check user obj
  else false

/-- properties.views.PropertyViewSet.get_queryset, as the predicate deciding
whether a given property row is in the role-filtered queryset. -/
def PropertyViewSet.queryset_contains (user : User) (obj : Property) : Bool :=
  if user.is_landlord then obj.landlord == user.id
  else if user.is_caretaker then obj.caretakers.contains user.id
  else false

/-- properties.views.UnitViewSet.get_queryset membership predicate. -/
def UnitViewSet.queryset_contains (user : User) (obj : Unit) : Bool :=
  if user.is_landlord then obj.property.landlord == user.id
  else if user.is_caretaker then obj.property.caretakers.contains user.id
  else if user.is_tenant then obj.tenant == some user.id
  else false

/-- payments.views.PaymentViewSet.get_queryset membership predicate. -/
def PaymentViewSet.queryset_contains (user : User) (obj : Payment) : Bool :=
  if user.is_landlord then obj.unit.property.landlord == user.id
  else if user.is_caretaker then obj.unit.property.caretakers.contains user.id
  else if user.is_tenant then obj.tenant == user.id
  else false

/-- The targeting disjunction of the tenant branch of
notices.views.NoticeViewSet.get_queryset. -/
def NoticeViewSet.tenant_target_match (db : DB) (user : User) (n : Notice) : Bool :=
  (n.audience_type == .all_tenants)
  || (n.audience_type == .property &&
        (match n.target_property with
         | some p => db.units.any (fun un => un.property.id == p.id && un.tenant == some user.id)
         | none => false))
  || (n.audience_type == .unit &&
        (match n.target_unit with
         | some un => un.tenant == some user.id
         | none => false))
  || (n.audience_type == .individual && n.target_user == some user.id)
  || (n.audience_type == .custom && n.custom_recipients.contains user.id)

/-- notices.views.NoticeViewSet.get_queryset membership predicate, at time
`now` (used by the publish_date and expiry_date filters of the tenant
branch). -/
def NoticeViewSet.queryset_contains (db : DB) (user : User) (now : Nat) (n : Notice) : Bool :=
  if user.is_tenant then
    NoticeViewSet.tenant_target_match db user n
    && n.is_published
    && decide (n.publish_date ≤ now)
    && (match n.expiry_date with
        | none => true
        | some e => decide (now < e))
  else if user.is_landlord then
    (n.created_by == user.id)
    || (n.audience_type == .property &&
          (match n.target_property with
           | some p => p.landlord == user.id
           | none => false))
    || (n.audience_type == .unit &&
          (match n.target_unit with
           | some un => un.property.landlord == user.id
           | none => false))
    || (n.audience_type == .individual &&
          (match n.target_user with
           | some t => db.units.any (fun un => un.tenant == some t && un.property.landlord == user.id)
           | none => false))
  else if user.is_caretaker then
    (n.created_by == user.id)
    || (n.audience_type == .property &&
          (match n.target_property with
           | some p => p.caretakers.contains user.id
           | none => false))
    || (n.audience_type == .unit &&
          (match n.target_unit with
           | some un => un.property.caretakers.contains user.id
           | none => false))
  else false

/-- payments.models.Payment.get_monthly_total. -/
def Payment.get_monthly_total (db : DB) (unit : Unit) (year month : Nat) : Int :=
  ((db.payments.filter (fun p =>
      p.unit.id == unit.id
      && p.payment_year == some year
      && p.payment_month == some month
      && p.status == .completed)).map Payment.amount).sum

/-- Return shape of payments.models.Payment.get_tenant_balance.  The Python
dict of the unit-less branch carries no is_behind key; it is modelled as
false. -/
structure TenantBalance where
  unit : Option Unit
  expected : Int
  paid : Int
  balance : Int
  is_behind : Bool
deriving DecidableEq

/-- payments.models.Payment.get_tenant_balance. -/
def Payment.get_tenant_balance (db : DB) (tenant : User) (year month : Nat) : TenantBalance :=
  match db.units.find? (fun un => un.tenant == some tenant.id) with
  | none => { unit := none, expected := 0, paid := 0, balance := 0, is_behind := false }
  | some unit =>
      let expected_rent := unit.rent_amount
      let paid_amount := Payment.get_monthly_total db unit year month
      let balance := expected_rent - paid_amount
      { unit := some unit
        expected := expected_rent
        paid := paid_amount
        balance := balance
        is_behind := decide (balance > 0) }

/-- properties.models.Unit.save: coupling of tenant assignment and status
(the total_units recomputation on the property is outside the modelled
state). -/
def Unit.save (u : Unit) : Unit :=
  if u.tenant.isSome then { u with status := .occupied }
  else if u.status == .occupied && !u.tenant.isSome then { u with status := .available }
  else u

/-- Outcome of properties.views.UnitViewSet.assign_tenant. -/
inductive AssignTenantResult where
  | ok (unit : Unit)
  | badRequest (msg : String)
  | notFound (msg : String)
deriving DecidableEq

/-- properties.views.UnitViewSet.assign_tenant. -/
def UnitViewSet.assign_tenant (db : DB) (unit : Unit) (tenant_id : Option Nat) : AssignTenantResult :=
  match tenant_id with
  | none => .badRequest "tenant_id is required"
  | some tid =>
      match db.users.find? (fun u => u.id == tid && u.role == .tenant) with
      | none => .notFound "Tenant not found"
      | some tenant =>
          if db.units.any (fun un => un.tenant == some tenant.id) then
            .badRequest "Tenant already assigned to another unit"
          else
            .ok (Unit.save { unit with tenant := some tenant.id })

/-- notices.models.NoticeReadStatus: the mutable part of the per (notice,
user) row. -/
structure NoticeReadStatus where
  is_read : Bool
  read_at : Option Nat
deriving DecidableEq

/-- notices.models.NoticeReadStatus.mark_as_read, at time `now`. -/
def NoticeReadStatus.mark_as_read (r : NoticeReadStatus) (now : Nat) : NoticeReadStatus :=
  if !r.is_read then { is_read := true, read_at := some now } else r

/-- Django get_or_create on the unique (notice, user) read-status row:
creates the row with the model defaults is_read=false, read_at=null when it
does not exist. -/
def NoticeReadStatus.get_or_create (s : Option NoticeReadStatus) : NoticeReadStatus :=
  s.getD { is_read := false, read_at := none }

/-- notices.views.NoticeViewSet.retrieve: its effect on the (notice, user)
read-status row when a tenant recipient views the notice. -/
def NoticeViewSet.retrieve (s : Option NoticeReadStatus) : Option NoticeReadStatus :=
  some (NoticeReadStatus.get_or_create s)

/-- notices.views.NoticeViewSet.mark_as_read action, for a tenant, at time
`now`: get_or_create followed by NoticeReadStatus.mark_as_read. -/
def NoticeViewSet.mark_read (now : Nat) (s : Option NoticeReadStatus) : Option NoticeReadStatus :=
  some ((NoticeReadStatus.get_or_create s).mark_as_read now)

/-- The two operations a tenant can perform against a read-status row. -/
inductive ReadOp where
  | view
  | ack (now : Nat)
deriving DecidableEq

/-- Apply one read-tracking operation. -/
def ReadOp.apply (s : Option NoticeReadStatus) : ReadOp → Option NoticeReadStatus
  | .view => NoticeViewSet.retrieve s
  | .ack now => NoticeViewSet.mark_read now s

/-- Run a sequence of read-tracking operations. -/
def runReadOps (s : Option NoticeReadStatus) : List ReadOp → Option NoticeReadStatus
  | [] => s
  | op :: ops => runReadOps (ReadOp.apply s op) ops

/-- Validated attribute set of notices.serializers.NoticeCreateSerializer. -/
structure NoticeAttrs where
  audience_type : AudienceType
  target_property : Option Property
  target_unit : Option Unit
  target_user : Option Nat
  custom_recipients : List Nat
  publish_date : Nat
  expiry_date : Option Nat
deriving DecidableEq

/-- notices.serializers.NoticeCreateSerializer.validate, at time `now`. -/
def NoticeCreateSerializer.validate (now : Nat) (attrs : NoticeAttrs) : Except String NoticeAttrs :=
  if attrs.audience_type == .property && attrs.target_property.isNone then
    .error "target_property is required when audience type is property"
  else if attrs.audience_type == .unit && attrs.target_unit.isNone then
    .error "target_unit is required when audience type is unit"
  else if attrs.audience_type == .individual && attrs.target_user.isNone then
    .error "target_user is required when audience type is individual"
  else if attrs.audience_type == .custom && attrs.custom_recipients.isEmpty then
    .error "custom_recipients is required when audience type is custom"
  else
    match attrs.expiry_date with
    | some e => if e ≤ now then .error "Expiry date must be in the future" else .ok attrs
    | none => .ok attrs

/-- notices.serializers.NoticeCreateSerializer.create: builds the Notice with
the requesting user as created_by (is_published keeps its model default
true). -/
def NoticeCreateSerializer.create (creator : Nat) (attrs : NoticeAttrs) : Notice :=
  { id := 0
    audience_type := attrs.audience_type
    target_property := attrs.target_property
    target_unit := attrs.target_unit
    target_user := attrs.target_user
    custom_recipients := attrs.custom_recipients
    is_published := true
    publish_date := attrs.publish_date
    expiry_date := attrs.expiry_date
    created_by := creator }

/-- notices.models.Notice.save: the audience-targeting validation guards. -/
def Notice.save (n : Notice) : Except String Notice :=
  if n.audience_type == .property && n.target_property.isNone then
    .error "target_property is required when audience_type is property"
  else if n.audience_type == .unit && n.target_unit.isNone then
    .error "target_unit is required when audience_type is unit"
  else if n.audience_type == .individual && n.target_user.isNone then
    .error "target_user is required when audience_type is individual"
  else .ok n

/-- The target references each audience_type demands (spec section 3 data
model invariants and section 4.2 edge cases). -/
def Notice.valid_targets (n : Notice) : Bool :=
  match n.audience_type with
  | .property => n.target_property.isSome
  | .unit => n.target_unit.isSome
  | .individual => n.target_user.isSome
  | .custom => !n.custom_recipients.isEmpty
  | _ => true

/-- Recipient table of spec section 4.2, written from the words of the spec:
all_tenants gives every active user of role tenant; property gives the active
tenants whose assigned unit belongs to target_property; unit gives the single
tenant currently assigned to target_unit, empty if none; individual gives the
single target_user; caretakers gives every active caretaker; custom gives the
custom_recipients filtered to active users. -/
def specRecipients (db : DB) (n : Notice) : List User :=
  match n.audience_type with
  | .all_tenants =>
      db.users.filter (fun u => u.role == .tenant && u.is_active)
  | .property =>
      match n.target_property with
      | some p =>
          db.users.filter (fun u =>
            u.role == .tenant && u.is_active
            && db.units.any (fun un => un.tenant == some u.id && un.property.id == p.id))
      | none => []
  | .unit =>
      match n.target_unit with
      | some un =>
          match un.tenant with
          | some t => db.users.filter (fun u => u.id == t)
          | none => []
      | none => []
  | .individual =>
      match n.target_user with
      | some t => db.users.filter (fun u => u.id == t)
      | none => []
  | .caretakers =>
      db.users.filter (fun u => u.role == .caretaker && u.is_active)
  | .custom =>
      db.users.filter (fun u => n.custom_recipients.contains u.id && u.is_active)

/-- The Notice landlord clause of spec section 4.1, written from the words of
the spec: the landlord may act if the actor created the notice, or the
targeting resolves into the landlord's own properties, units, or tenants. -/
def specLandlordNoticeAccess (db : DB) (user : User) (n : Notice) : Bool :=
  (n.created_by == user.id)
  || (match n.audience_type, n.target_property, n.target_unit, n.target_user with
      | .property, some p, _, _ => p.landlord == user.id
      | .unit, _, some un, _ => un.property.landlord == user.id
      | .individual, _, _, some t =>
          db.units.any (fun un => un.tenant == some t && un.property.landlord == user.id)
      | _, _, _, _ => false)

/-- The Notice caretaker clause of spec section 4.1, read as fully symmetric
to the landlord clause but scoped to properties the caretaker manages: this
is the reading under which the claim is tested against the code. -/
def specCaretakerNoticeAccess (db : DB) (user : User) (n : Notice) : Bool :=
  (n.created_by == user.id)
  || (match n.audience_type, n.target_property, n.target_unit, n.target_user with
      | .property, some p, _, _ => p.caretakers.contains user.id
      | .unit, _, some un, _ => un.property.caretakers.contains user.id
      | .individual, _, _, some t =>
          db.units.any (fun un => un.tenant == some t && un.property.caretakers.contains user.id)
      | _, _, _, _ => false)

/-- The Notice caretaker clause as the code actually implements it: creator
access plus property- and unit-targeted access scoped to managed properties,
with no individual-targeting branch. -/
def caretakerNoticeAccessAmended (user : User) (n : Notice) : Bool :=
  (n.created_by == user.id)
  || (match n.audience_type, n.target_property, n.target_unit with
      | .property, some p, _ => p.caretakers.contains user.id
      | .unit, _, some un => un.property.caretakers.contains user.id
      | _, _, _ => false)

/-- Well-formedness of the user table: primary keys are unique. -/
def DB.unique_user_ids (db : DB) : Prop :=
  ∀ u1 ∈ db.users, ∀ u2 ∈ db.users, u1.id = u2.id → u1 = u2

/-- The at-most-one-unit-per-tenant invariant of the spec data model. -/
def DB.one_unit_per_tenant (db : DB) : Prop :=
  ∀ un1 ∈ db.units, ∀ un2 ∈ db.units, ∀ t : Nat,
    un1.tenant = some t → un2.tenant = some t → un1 = un2

/-- Sample landlord, id 1. -/
def landlordW : User := { id := 1, role := .landlord, is_active := true }

/-- Sample caretaker, id 2, managing the sample property. -/
def caretakerW : User := { id := 2, role := .caretaker, is_active := true }

/-- Sample tenant, id 3, assigned to the sample occupied unit. -/
def tenantW : User := { id := 3, role := .tenant, is_active := true }

/-- Sample agent, id 4. -/
def agentW : User := { id := 4, role := .agent, is_active := true }

/-- Sample property owned by landlord 1, managed by caretaker 2. -/
def propertyW : Property := { id := 10, landlord := 1, caretakers := [2] }

/-- Sample unit occupied by tenant 3. -/
def unitW : Unit :=
  { id := 20, property := propertyW, tenant := some 3, rent_amount := 1000, status := .occupied }

/-- Sample vacant unit. -/
def unitVacantW : Unit :=
  { id := 21, property := propertyW, tenant := none, rent_amount := 800, status := .available }

/-- Sample completed rent payment by tenant 3 for January 2025. -/
def paymentW : Payment :=
  { id := 40, tenant := 3, unit := unitW, amount := 600, status := .completed,
    payment_month := some 1, payment_year := some 2025 }

/-- Sample database holding the sample rows. -/
def dbW : DB :=
  { users := [landlordW, caretakerW, tenantW, agentW]
    units := [unitW, unitVacantW]
    payments := [paymentW] }

/-- A published all-tenants notice created by landlord 1. -/
def noticeAllW : Notice :=
  { id := 30, audience_type := .all_tenants, target_property := none, target_unit := none,
    target_user := none, custom_recipients := [], is_published := true, publish_date := 0,
    expiry_date := none, created_by := 1 }

/-- An unpublished all-tenants notice created by landlord 1. -/
def noticeUnpublishedW : Notice :=
  { id := 31, audience_type := .all_tenants, target_property := none, target_unit := none,
    target_user := none, custom_recipients := [], is_published := false, publish_date := 0,
    expiry_date := none, created_by := 1 }

/-- An individual notice created by landlord 1 targeting tenant 3, who lives
in a unit of the property caretaker 2 manages. -/
def noticeIndividualW : Notice :=
  { id := 32, audience_type := .individual, target_property := none, target_unit := none,
    target_user := some 3, custom_recipients := [], is_published := true, publish_date := 0,
    expiry_date := none, created_by := 1 }

/-- Attributes of a unit notice targeting the vacant unit. -/
def attrsUnitVacantW : NoticeAttrs :=
  { audience_type := .unit, target_property := none, target_unit := some unitVacantW,
    target_user := none, custom_recipients := [], publish_date := 0, expiry_date := none }

/-- An already-read read-status row. -/
def readRowW : NoticeReadStatus := { is_read := true, read_at := some 1 }

/-- Two booleans are equal when their truth is equivalent. -/
theorem bool_eq_of_iff {a b : Bool} (h : a = true ↔ b = true) : a = b := by
  cases a <;> cases b <;> simp_all

/-- On the unit table, testing a predicate on the first row assigned to a
tenant agrees with testing it on any row assigned to that tenant, under the
at-most-one-unit-per-tenant invariant. -/
theorem find_tenant_unit_vs_any (l : List Unit) (t : Nat) (f : Unit → Bool)
    (huniq : ∀ a ∈ l, ∀ b ∈ l, a.tenant = some t → b.tenant = some t → a = b) :
    (match l.find? (fun un => un.tenant == some t) with
     | some un => f un
     | none => false)
    = l.any (fun un => un.tenant == some t && f un) := by
  cases hf : l.find? (fun un => un.tenant == some t) with
  | none =>
      have hall := List.find?_eq_none.mp hf
      have hany : l.any (fun un => un.tenant == some t && f un) = false := by
        rw [List.any_eq_false]
        intro x hx
        simp only [Bool.and_eq_true, not_and]
        intro h1 _
        exact absurd h1 (hall x hx)
      rw [hany]
  | some un =>
      have hmem := List.mem_of_find?_eq_some hf
      have hten : un.tenant = some t := by
        have := List.find?_some hf
        simpa using this
      cases hfu : f un with
      | true =>
          have hany : l.any (fun x => x.tenant == some t && f x) = true := by
            rw [List.any_eq_true]
            exact ⟨un, hmem, by simp [hten, hfu]⟩
          rw [hany]
          exact hfu
      | false =>
          have hany : l.any (fun x => x.tenant == some t && f x) = false := by
            rw [List.any_eq_false]
            intro x hx
            simp only [Bool.and_eq_true, not_and]
            intro hxt hfx
            have hxt2 : x.tenant = some t := by simpa using hxt
            have hxu : x = un := huniq x hx un hmem hxt2 hten
            rw [hxu, hfu] at hfx
            exact Bool.noConfusion hfx
          rw [hany]
          exact hfu

/-- A read row stays fixed under any single read-tracking operation once
is_read is set. -/
theorem ReadOp.apply_read_fixed (r : NoticeReadStatus) (hr : r.is_read = true) (op : ReadOp) :
    ReadOp.apply (some r) op = some r := by
  cases op with
  | view => rfl
  | ack now =>
      simp [ReadOp.apply, NoticeViewSet.mark_read, NoticeReadStatus.get_or_create,
        NoticeReadStatus.mark_as_read, hr]

/-- A read row stays fixed under any sequence of read-tracking operations. -/
theorem runReadOps_read_fixed (r : NoticeReadStatus) (hr : r.is_read = true) :
    ∀ ops : List ReadOp, runReadOps (some r) ops = some r := by
  intro ops
  induction ops with
  | nil => rfl
  | cons op ops ih =>
      simp only [runReadOps]
      rw [ReadOp.apply_read_fixed r hr op]
      exact ih

/-- C3: every authorization predicate fails closed: an actor whose role
matches no granting branch, i.e. every agent, is denied by every
collection-level and every object-level permission check of Property, Unit,
Payment, and Notice, for every operation. -/
theorem agent_always_denied
    (db : DB) (user : User) (safe : Bool)
    (pobj : Property) (uobj : Unit) (payobj : Payment) (nobj : Notice)
    (hrole : user.role = .agent) :
    PropertyPermission.has_permission user = false
    ∧ UnitPermission.has_permission user = false
    ∧ PaymentPermission.has_permission user = false
    ∧ NoticePermission.has_permission user = false
    ∧ PropertyPermission.has_object_permission user pobj = false
    ∧ UnitPermission.has_object_permission user safe uobj = false
    ∧ PaymentPermission.has_object_permission user safe payobj = false
    ∧ NoticePermission.has_object_permission db user safe nobj = false := by
  simp [PropertyPermission.has_permission, UnitPermission.has_permission,
    PaymentPermission.has_permission, NoticePermission.has_permission,
    PropertyPermission.has_object_permission, UnitPermission.has_object_permission,
    PaymentPermission.has_object_permission, NoticePermission.has_object_permission,
    User.is_landlord, User.is_caretaker, User.is_tenant, hrole]

/-- Witness for agent_always_denied at the sample rows. -/
theorem agent_always_denied_witness :
    NoticePermission.has_object_permission dbW agentW true noticeAllW = false :=
  (agent_always_denied dbW agentW true propertyW unitW paymentW noticeAllW rfl).2.2.2.2.2.2.2

/-- C9: a tenant actor gets access to a Unit only for read operations on
their own assigned unit, and to a Payment only for read operations on their
own payment; every write by a tenant on a Unit or Payment is denied. -/
theorem tenant_unit_payment_read_only
    (user : User) (safe : Bool) (uobj : Unit) (payobj : Payment)
    (hrole : user.role = .tenant) :
    UnitPermission.has_object_permission user safe uobj = (safe && uobj.tenant == some user.id)
    ∧ PaymentPermission.has_object_permission user safe payobj = (safe && payobj.tenant == user.id) := by
  cases safe <;>
    simp [UnitPermission.has_object_permission, PaymentPermission.has_object_permission,
      User.is_landlord, User.is_caretaker, User.is_tenant, hrole]

/-- Witness for tenant_unit_payment_read_only: tenant 3 reading their own
unit. -/
theorem tenant_unit_payment_read_only_witness :
    UnitPermission.has_object_permission tenantW true unitW
      = (true && unitW.tenant == some tenantW.id) :=
  (tenant_unit_payment_read_only tenantW true unitW paymentW rfl).1

/-- C10: Unit.save couples tenant assignment with status: with a tenant the
persisted status is occupied; without a tenant a previously occupied status
becomes available; hence no saved unit carries a tenant with a status other
than occupied. -/
theorem unit_save_status_coupling (u : Unit) :
    (u.tenant.isSome = true → (Unit.save u).status = .occupied)
    ∧ (u.tenant = none → u.status = .occupied → (Unit.save u).status = .available)
    ∧ ((Unit.save u).tenant.isSome = true → (Unit.save u).status = .occupied) := by
  have hpres : (Unit.save u).tenant = u.tenant := by
    unfold Unit.save
    split
    · rfl
    · split <;> rfl
  have h1 : u.tenant.isSome = true → (Unit.save u).status = .occupied := by
    intro h
    simp [Unit.save, h]
  refine ⟨h1, ?_, ?_⟩
  · intro hnone hocc
    simp [Unit.save, hnone, hocc]
  · intro h
    rw [hpres] at h
    exact h1 h

/-- Witness for unit_save_status_coupling at the occupied sample unit. -/
theorem unit_save_status_coupling_witness : (Unit.save unitW).status = .occupied :=
  (unit_save_status_coupling unitW).1 rfl

/-- C5: read tracking never regresses: the first retrieval creates the row
unread with no read_at; retrieval never changes an existing row; an
acknowledgment sets is_read and read_at exactly when the row was unread; and
once is_read is set, any sequence of retrievals and acknowledgments leaves
the row, including read_at, unchanged. -/
theorem read_status_never_regresses
    (r : NoticeReadStatus) (now : Nat) (ops : List ReadOp) :
    (NoticeViewSet.retrieve none = some { is_read := false, read_at := none })
    ∧ (NoticeViewSet.retrieve (some r) = some r)
    ∧ (r.is_read = false → r.mark_as_read now = { is_read := true, read_at := some now })
    ∧ (r.is_read = true → r.mark_as_read now = r)
    ∧ (r.is_read = true → runReadOps (some r) ops = some r) := by
  refine ⟨rfl, rfl, ?_, ?_, ?_⟩
  · intro h
    simp [NoticeReadStatus.mark_as_read, h]
  · intro h
    simp [NoticeReadStatus.mark_as_read, h]
  · intro h
    exact runReadOps_read_fixed r h ops

/-- Witness for read_status_never_regresses: a read row survives a view and a
later acknowledgment unchanged. -/
theorem read_status_never_regresses_witness :
    runReadOps (some readRowW) [ReadOp.view, ReadOp.ack 9] = some readRowW :=
  (read_status_never_regresses readRowW 9 [ReadOp.view, ReadOp.ack 9]).2.2.2.2 rfl

/-- C6 counterexample: tenant 3 is already assigned to this very unit, and
re-assigning them to the same unit is rejected with an error instead of
succeeding as a no-op. -/
theorem assign_tenant_same_unit_rejected :
    unitW.tenant = some tenantW.id
    ∧ UnitViewSet.assign_tenant dbW unitW (some tenantW.id)
        = .badRequest "Tenant already assigned to another unit" :=
  ⟨rfl, rfl⟩

/-- C6 amended: assign_tenant rejects any tenant that already has an assigned
unit, whether a different unit or this very one, and succeeds, saving the
unit with the tenant set, exactly when the tenant has no assigned unit. -/
theorem assign_tenant_rejects_assigned
    (db : DB) (unit : Unit) (tid : Nat) (t : User)
    (hfind : db.users.find? (fun u => u.id == tid && u.role == .tenant) = some t) :
    (db.units.any (fun un => un.tenant == some t.id) = true →
      UnitViewSet.assign_tenant db unit (some tid)
        = .badRequest "Tenant already assigned to another unit")
    ∧ (db.units.any (fun un => un.tenant == some t.id) = false →
      UnitViewSet.assign_tenant db unit (some tid)
        = .ok (Unit.save { unit with tenant := some t.id })) := by
  constructor <;> intro h <;> simp [UnitViewSet.assign_tenant, hfind, h]

/-- Witness for assign_tenant_rejects_assigned: tenant 3, assigned to the
occupied sample unit, cannot be assigned to the vacant one. -/
theorem assign_tenant_rejects_assigned_witness :
    UnitViewSet.assign_tenant dbW unitVacantW (some 3)
      = .badRequest "Tenant already assigned to another unit" :=
  (assign_tenant_rejects_assigned dbW unitVacantW 3 tenantW rfl).1 rfl

/-- C7: construction of a notice whose audience_type demands an absent target
reference fails validation, in both the serializer and the model save, while
a unit notice targeting a unit with no tenant passes validation and resolves
to an empty recipient set. -/
theorem notice_target_validation
    (now : Nat) (a : NoticeAttrs) (n : Notice) (db : DB) (creator : Nat) (un : Unit) :
    (a.audience_type = .property → a.target_property = none →
       NoticeCreateSerializer.validate now a
         = .error "target_property is required when audience type is property")
    ∧ (n.audience_type = .property → n.target_property = none →
       Notice.save n = .error "target_property is required when audience_type is property")
    ∧ (a.audience_type = .unit → a.target_unit = some un →
       (match a.expiry_date with
        | some e => decide (now < e)
        | none => true) = true →
       NoticeCreateSerializer.validate now a = .ok a)
    ∧ (a.audience_type = .unit → a.target_unit = some un → un.tenant = none →
       Notice.get_recipients db (NoticeCreateSerializer.create creator a) = []) := by
  refine ⟨?_, ?_, ?_, ?_⟩
  · intro h1 h2
    simp [NoticeCreateSerializer.validate, h1, h2]
  · intro h1 h2
    simp [Notice.save, h1, h2]
  · intro h1 h2 h3
    cases he : a.expiry_date with
    | none => simp [NoticeCreateSerializer.validate, h1, h2, he]
    | some e =>
        rw [he] at h3
        simp only [decide_eq_true_eq] at h3
        simp [NoticeCreateSerializer.validate, h1, h2, he, Nat.not_le.mpr h3]
  · intro h1 h2 h3
    simp [Notice.get_recipients, NoticeCreateSerializer.create, h1, h2, h3]

/-- Witness for notice_target_validation: the unit notice on the vacant
sample unit validates and has no recipients. -/
theorem notice_target_validation_witness :
    NoticeCreateSerializer.validate 5 attrsUnitVacantW = .ok attrsUnitVacantW
    ∧ Notice.get_recipients dbW (NoticeCreateSerializer.create 1 attrsUnitVacantW) = [] :=
  ⟨(notice_target_validation 5 attrsUnitVacantW noticeAllW dbW 1 unitVacantW).2.2.1 rfl rfl rfl,
   (notice_target_validation 5 attrsUnitVacantW noticeAllW dbW 1 unitVacantW).2.2.2 rfl rfl rfl⟩

/-- C4: for the unit resolved for the tenant, balance equals rent_amount
minus the completed-payment total for the period, is_behind holds exactly
when the balance is positive, and with no completed payments for the period
the balance equals the rent and is_behind holds whenever the rent is
positive. -/
theorem payment_balance_correct
    (db : DB) (tenant : User) (year month : Nat) (unit : Unit)
    (hfind : db.units.find? (fun un => un.tenant == some tenant.id) = some unit) :
    ((Payment.get_tenant_balance db tenant year month).balance
       = unit.rent_amount - Payment.get_monthly_total db unit year month)
    ∧ ((Payment.get_tenant_balance db tenant year month).is_behind
       = decide (0 < (Payment.get_tenant_balance db tenant year month).balance))
    ∧ (db.payments.filter (fun p =>
          p.unit.id == unit.id && p.payment_year == some year
          && p.payment_month == some month && p.status == .completed) = [] →
        ((Payment.get_tenant_balance db tenant year month).balance = unit.rent_amount
         ∧ (0 < unit.rent_amount →
             (Payment.get_tenant_balance db tenant year month).is_behind = true))) := by
  unfold Payment.get_tenant_balance
  rw [hfind]
  refine ⟨rfl, rfl, ?_⟩
  intro hempty
  constructor
  · simp [Payment.get_monthly_total, hempty]
  · intro hpos
    simp [Payment.get_monthly_total, hempty, hpos]

/-- Witness for payment_balance_correct at the sample ledger. -/
theorem payment_balance_correct_witness :
    (Payment.get_tenant_balance dbW tenantW 2025 1).balance
      = unitW.rent_amount - Payment.get_monthly_total dbW unitW 2025 1 :=
  (payment_balance_correct dbW tenantW 2025 1 unitW rfl).1

/-- C2: for every notice carrying the target its audience_type demands, the
recipients the code resolves equal the recipient table of the spec, audience
type by audience type. -/
theorem recipients_match_spec (db : DB) (n : Notice)
    (hv : n.valid_targets = true) :
    n.get_recipients db = specRecipients db n := by
  cases hat : n.audience_type with
  | all_tenants => simp [Notice.get_recipients, specRecipients, hat]
  | property =>
      have hp : n.target_property.isSome = true := by
        unfold Notice.valid_targets at hv
        rw [hat] at hv
        exact hv
      cases htp : n.target_property with
      | none => rw [htp] at hp; exact Bool.noConfusion hp
      | some p =>
          simp only [Notice.get_recipients, specRecipients, hat, htp]
          apply List.filter_congr
          intro u _
          cases u.role == Role.tenant <;> cases u.is_active <;>
            cases db.units.any (fun un => un.tenant == some u.id && un.property.id == p.id) <;>
              rfl
  | unit =>
      cases htu : n.target_unit with
      | none =>
          unfold Notice.valid_targets at hv
          rw [hat, htu] at hv
          exact Bool.noConfusion hv
      | some un => cases un.tenant <;> simp [Notice.get_recipients, specRecipients, hat, htu]
  | individual =>
      cases htu : n.target_user with
      | none =>
          unfold Notice.valid_targets at hv
          rw [hat, htu] at hv
          exact Bool.noConfusion hv
      | some t => simp [Notice.get_recipients, specRecipients, hat, htu]
  | caretakers => simp [Notice.get_recipients, specRecipients, hat]
  | custom => simp [Notice.get_recipients, specRecipients, hat]

/-- Witness for recipients_match_spec on the published sample notice. -/
theorem recipients_match_spec_witness :
    Notice.get_recipients dbW noticeAllW = specRecipients dbW noticeAllW :=
  recipients_match_spec dbW noticeAllW rfl

/-- For an active tenant row of a well-formed user table, the targeting
disjunction of the tenant queryset branch coincides with membership in the
resolved recipient set. -/
theorem tenant_target_match_eq_has_recipient
    (db : DB) (user : User) (n : Notice)
    (hrole : user.role = .tenant) (hmem : user ∈ db.users)
    (huid : db.unique_user_ids) (hact : user.is_active = true) :
    NoticeViewSet.tenant_target_match db user n = n.has_recipient db user := by
  cases hat : n.audience_type with
  | all_tenants =>
      have hL : NoticeViewSet.tenant_target_match db user n = true := by
        simp [NoticeViewSet.tenant_target_match, hat]
      have hR : n.has_recipient db user = true := by
        unfold Notice.has_recipient Notice.get_recipients
        rw [hat, List.any_eq_true]
        refine ⟨user, ?_, by simp⟩
        rw [List.mem_filter]
        exact ⟨hmem, by simp [hrole, hact]⟩
      rw [hL, hR]
  | property =>
      cases htp : n.target_property with
      | none =>
          simp [NoticeViewSet.tenant_target_match, Notice.has_recipient,
            Notice.get_recipients, hat, htp]
      | some p =>
          apply bool_eq_of_iff
          unfold NoticeViewSet.tenant_target_match Notice.has_recipient Notice.get_recipients
          rw [hat, htp]
          simp only [Bool.or_eq_true, Bool.and_eq_true, beq_iff_eq, reduceCtorEq,
            false_and, false_or, or_false, true_and]
          constructor
          · intro h
            rw [List.any_eq_true] at h
            obtain ⟨un, hun, hcond⟩ := h
            rw [Bool.and_eq_true] at hcond
            rw [List.any_eq_true]
            refine ⟨user, ?_, by simp⟩
            rw [List.mem_filter]
            refine ⟨hmem, ?_⟩
            simp only [Bool.and_eq_true]
            refine ⟨⟨by simp [hrole], ?_⟩, hact⟩
            rw [List.any_eq_true]
            exact ⟨un, hun, by simp [hcond.1, hcond.2]⟩
          · intro h
            rw [List.any_eq_true] at h
            obtain ⟨u2, hu2, hid⟩ := h
            rw [List.mem_filter] at hu2
            obtain ⟨_, hpred⟩ := hu2
            simp only [Bool.and_eq_true] at hpred
            obtain ⟨⟨_, hany⟩, _⟩ := hpred
            have hid2 : u2.id = user.id := by simpa using hid
            rw [List.any_eq_true] at hany ⊢
            obtain ⟨un, hun, hcond⟩ := hany
            rw [Bool.and_eq_true] at hcond
            obtain ⟨hc1, hc2⟩ := hcond
            rw [hid2] at hc1
            exact ⟨un, hun, by simp [hc1, hc2]⟩
  | unit =>
      cases htu : n.target_unit with
      | none =>
          simp [NoticeViewSet.tenant_target_match, Notice.has_recipient,
            Notice.get_recipients, hat, htu]
      | some un =>
          cases hunt : un.tenant with
          | none =>
              simp [NoticeViewSet.tenant_target_match, Notice.has_recipient,
                Notice.get_recipients, hat, htu, hunt]
          | some t =>
              apply bool_eq_of_iff
              unfold NoticeViewSet.tenant_target_match Notice.has_recipient
                Notice.get_recipients
              rw [hat, htu]
              simp only [hunt, Bool.or_eq_true, Bool.and_eq_true, beq_iff_eq, reduceCtorEq,
                false_and, false_or, or_false, true_and, Option.some.injEq]
              constructor
              · intro h
                rw [List.any_eq_true]
                refine ⟨user, ?_, by simp⟩
                rw [List.mem_filter]
                exact ⟨hmem, by simp [h]⟩
              · intro h
                rw [List.any_eq_true] at h
                obtain ⟨u2, hu2, hid⟩ := h
                rw [List.mem_filter] at hu2
                have hu2t : u2.id = t := by simpa using hu2.2
                have hid2 : u2.id = user.id := by simpa using hid
                rw [← hid2, hu2t]
  | individual =>
      cases htu : n.target_user with
      | none =>
          simp [NoticeViewSet.tenant_target_match, Notice.has_recipient,
            Notice.get_recipients, hat, htu]
      | some t =>
          apply bool_eq_of_iff
          unfold NoticeViewSet.tenant_target_match Notice.has_recipient Notice.get_recipients
          rw [hat, htu]
          simp only [Bool.or_eq_true, Bool.and_eq_true, beq_iff_eq, reduceCtorEq,
            false_and, false_or, or_false, true_and, Option.some.injEq]
          constructor
          · intro h
            rw [List.any_eq_true]
            refine ⟨user, ?_, by simp⟩
            rw [List.mem_filter]
            exact ⟨hmem, by simp [h]⟩
          · intro h
            rw [List.any_eq_true] at h
            obtain ⟨u2, hu2, hid⟩ := h
            rw [List.mem_filter] at hu2
            have hu2t : u2.id = t := by simpa using hu2.2
            have hid2 : u2.id = user.id := by simpa using hid
            rw [← hid2, hu2t]
  | caretakers =>
      have hL : NoticeViewSet.tenant_target_match db user n = false := by
        simp [NoticeViewSet.tenant_target_match, hat]
      have hR : n.has_recipient db user = false := by
        unfold Notice.has_recipient Notice.get_recipients
        rw [hat, List.any_eq_false]
        intro u2 hu2
        rw [List.mem_filter] at hu2
        obtain ⟨hu2m, hpred⟩ := hu2
        simp only [Bool.and_eq_true] at hpred
        intro hid
        have hequ : u2 = user := huid u2 hu2m user hmem (by simpa using hid)
        rw [hequ, hrole] at hpred
        simp at hpred
      rw [hL, hR]
  | custom =>
      apply bool_eq_of_iff
      unfold NoticeViewSet.tenant_target_match Notice.has_recipient Notice.get_recipients
      rw [hat]
      simp only [Bool.or_eq_true, Bool.and_eq_true, beq_iff_eq, reduceCtorEq,
        false_and, false_or, or_false, true_and]
      constructor
      · intro h
        rw [List.any_eq_true]
        refine ⟨user, ?_, by simp⟩
        rw [List.mem_filter]
        refine ⟨hmem, ?_⟩
        simp only [Bool.and_eq_true]
        exact ⟨h, hact⟩
      · intro h
        rw [List.any_eq_true] at h
        obtain ⟨u2, hu2, hid⟩ := h
        rw [List.mem_filter] at hu2
        obtain ⟨_, hpred⟩ := hu2
        simp only [Bool.and_eq_true] at hpred
        have hid2 : u2.id = user.id := by simpa using hid
        have := hpred.1
        rw [hid2] at this
        exact this

/-- For a landlord actor, the notice queryset agrees with the landlord block
of the object-level check, under the at-most-one-unit-per-tenant
invariant. -/
theorem landlord_notice_queryset_vs_perm
    (db : DB) (user : User) (now : Nat) (n : Notice)
    (hrole : user.role = .landlord) (huniq : db.one_unit_per_tenant) :
    NoticeViewSet.queryset_contains db user now n
      = NoticePermission.has_object_permission db user true n := by
  have hl : user.is_landlord = true := by simp [User.is_landlord, hrole]
  have ht : user.is_tenant = false := by simp [User.is_tenant, hrole]
  simp only [NoticeViewSet.queryset_contains, NoticePermission.has_object_permission,
    hl, ht, Bool.false_eq_true, if_false, if_true]
  unfold NoticePermission.landlord_check
  cases hc : (n.created_by == user.id) with
  | true => simp [hc]
  | false =>
      simp only [hc, Bool.false_or, Bool.false_eq_true, if_false]
      cases hat : n.audience_type with
      | property =>
          apply bool_eq_of_iff
          cases htp : n.target_property <;> simp [hat, htp]
      | unit =>
          apply bool_eq_of_iff
          cases htu : n.target_unit <;> simp [hat, htu]
      | individual =>
          cases htu : n.target_user with
          | none =>
              apply bool_eq_of_iff
              simp [hat, htu]
          | some t =>
              have hfa : (match db.units.find? (fun un => un.tenant == some t) with
                          | some tenant_unit => tenant_unit.property.landlord == user.id
                          | none => false)
                        = db.units.any (fun un =>
                            un.tenant == some t && un.property.landlord == user.id) :=
                find_tenant_unit_vs_any db.units t
                  (fun un => un.property.landlord == user.id)
                  (fun a ha b hb => huniq a ha b hb t)
              apply bool_eq_of_iff
              cases htp : n.target_property <;> cases htu2 : n.target_unit <;>
                simp [hat, htu, htp, htu2, hfa]
      | all_tenants =>
          apply bool_eq_of_iff
          simp [hat, hc]
      | caretakers =>
          apply bool_eq_of_iff
          simp [hat]
      | custom =>
          apply bool_eq_of_iff
          simp [hat]

/-- For a caretaker actor, the notice queryset agrees with the caretaker
block of the object-level check. -/
theorem caretaker_notice_queryset_vs_perm
    (db : DB) (user : User) (now : Nat) (n : Notice)
    (hrole : user.role = .caretaker) :
    NoticeViewSet.queryset_contains db user now n
      = NoticePermission.has_object_permission db user true n := by
  have hck : user.is_caretaker = true := by simp [User.is_caretaker, hrole]
  have hl : user.is_landlord = false := by simp [User.is_landlord, hrole]
  have ht : user.is_tenant = false := by simp [User.is_tenant, hrole]
  simp only [NoticeViewSet.queryset_contains, NoticePermission.has_object_permission,
    hck, hl, ht, Bool.false_eq_true, if_false, if_true]
  unfold NoticePermission.caretaker_check
  cases hc : (n.created_by == user.id) with
  | true => simp [hc]
  | false =>
      simp only [hc, Bool.false_or, Bool.false_eq_true, if_false]
      cases hat : n.audience_type with
      | property =>
          apply bool_eq_of_iff
          cases htp : n.target_property <;> simp [hat, htp]
      | unit =>
          apply bool_eq_of_iff
          cases htu : n.target_unit <;> simp [hat, htu]
      | all_tenants =>
          apply bool_eq_of_iff
          simp [hat]
      | individual =>
          apply bool_eq_of_iff
          simp [hat]
      | caretakers =>
          apply bool_eq_of_iff
          simp [hat]
      | custom =>
          apply bool_eq_of_iff
          simp [hat]

/-- C8 amended: for notices, a tenant may read exactly when they are a member
of the resolved recipient set and may never write; an agent is always
denied; a landlord may act exactly when they created the notice or its
targeting resolves into their own properties, units, or tenants, given the
at-most-one-unit-per-tenant invariant; a caretaker gets the creator rule
plus the property- and unit-targeted rules scoped to managed properties but,
unlike the landlord, has no access through individual targeting. -/
theorem notice_object_permission_by_role
    (db : DB) (user : User) (safe : Bool) (n : Notice) :
    (user.role = .tenant →
       NoticePermission.has_object_permission db user true n = n.has_recipient db user
       ∧ NoticePermission.has_object_permission db user false n = false)
    ∧ (user.role = .agent → NoticePermission.has_object_permission db user safe n = false)
    ∧ (user.role = .landlord → db.one_unit_per_tenant →
       NoticePermission.has_object_permission db user safe n
         = specLandlordNoticeAccess db user n)
    ∧ (user.role = .caretaker →
       NoticePermission.has_object_permission db user safe n
         = caretakerNoticeAccessAmended user n) := by
  refine ⟨?_, ?_, ?_, ?_⟩
  · intro hrole
    constructor <;>
      simp [NoticePermission.has_object_permission, User.is_tenant, hrole]
  · intro hrole
    simp [NoticePermission.has_object_permission, User.is_tenant, User.is_landlord,
      User.is_caretaker, hrole]
  · intro hrole huniq
    have hl : user.is_landlord = true := by simp [User.is_landlord, hrole]
    have ht : user.is_tenant = false := by simp [User.is_tenant, hrole]
    simp only [NoticePermission.has_object_permission, hl, ht, Bool.false_eq_true,
      if_false, if_true]
    unfold NoticePermission.landlord_check specLandlordNoticeAccess
    cases hc : (n.created_by == user.id) with
    | true => simp [hc]
    | false =>
        simp only [hc, Bool.false_or, Bool.false_eq_true, if_false]
        cases hat : n.audience_type with
        | property => cases htp : n.target_property <;> simp [hat, htp]
        | unit => cases htu : n.target_unit <;> simp [hat, htu]
        | individual =>
            cases htu : n.target_user with
            | none => simp [hat, htu]
            | some t =>
                simp only [hat, htu]
                exact find_tenant_unit_vs_any db.units t
                  (fun un => un.property.landlord == user.id)
                  (fun a ha b hb => huniq a ha b hb t)
        | all_tenants => simp [hat, hc]
        | caretakers => simp [hat]
        | custom => simp [hat]
  · intro hrole
    have hck : user.is_caretaker = true := by simp [User.is_caretaker, hrole]
    have hl : user.is_landlord = false := by simp [User.is_landlord, hrole]
    have ht : user.is_tenant = false := by simp [User.is_tenant, hrole]
    simp only [NoticePermission.has_object_permission, hck, hl, ht, Bool.false_eq_true,
      if_false, if_true]
    unfold NoticePermission.caretaker_check caretakerNoticeAccessAmended
    cases hc : (n.created_by == user.id) with
    | true => simp [hc]
    | false =>
        simp only [hc, Bool.false_or, Bool.false_eq_true, if_false]

/-- Witness for notice_object_permission_by_role: the caretaker clause at the
sample rows. -/
theorem notice_object_permission_by_role_witness :
    NoticePermission.has_object_permission dbW caretakerW true noticeAllW
      = caretakerNoticeAccessAmended caretakerW noticeAllW :=
  (notice_object_permission_by_role dbW caretakerW true noticeAllW).2.2.2 rfl

/-- C8 counterexample: an individual notice targeting a tenant housed in a
property the caretaker manages is denied to the caretaker by the code,
although the symmetric-to-landlord reading of the spec clause grants it. -/
theorem notice_caretaker_not_symmetric :
    NoticePermission.has_object_permission dbW caretakerW true noticeIndividualW = false
    ∧ specCaretakerNoticeAccess dbW caretakerW noticeIndividualW = true := by
  constructor <;> rfl

/-- For a tenant actor that is active and a row of a well-formed user table,
and a notice inside its publication window, the notice queryset agrees with
the object-level check. -/
theorem tenant_notice_queryset_vs_perm
    (db : DB) (user : User) (now : Nat) (n : Notice)
    (hrole : user.role = .tenant) (hmem : user ∈ db.users)
    (huid : db.unique_user_ids) (hact : user.is_active = true)
    (hpub : n.is_published = true)
    (hdate : decide (n.publish_date ≤ now) = true)
    (hexp : (match n.expiry_date with
             | none => true
             | some e => decide (now < e)) = true) :
    NoticeViewSet.queryset_contains db user now n
      = NoticePermission.has_object_permission db user true n := by
  have ht : user.is_tenant = true := by simp [User.is_tenant, hrole]
  simp only [NoticeViewSet.queryset_contains, NoticePermission.has_object_permission,
    ht, if_true, hpub, hdate, hexp, Bool.and_true]
  exact tenant_target_match_eq_has_recipient db user n hrole hmem huid hact

/-- C1 amended: the role-filtered listing querysets agree with the
object-level read checks: exactly, for every actor, on Property, Unit, and
Payment; for Notice, exactly for agent and caretaker actors, for landlord
actors under the at-most-one-unit-per-tenant invariant, and for tenant
actors provided the tenant row is active and belongs to a user table with
unique ids and the notice is published, past its publish_date, and
unexpired. -/
theorem queryset_agrees_with_object_permission
    (db : DB) (user : User) (now : Nat)
    (pobj : Property) (uobj : Unit) (payobj : Payment) (n : Notice) :
    (PropertyViewSet.queryset_contains user pobj
       = PropertyPermission.has_object_permission user pobj)
    ∧ (UnitViewSet.queryset_contains user uobj
       = UnitPermission.has_object_permission user true uobj)
    ∧ (PaymentViewSet.queryset_contains user payobj
       = PaymentPermission.has_object_permission user true payobj)
    ∧ (user.role = .agent ∨ user.role = .caretaker →
        NoticeViewSet.queryset_contains db user now n
          = NoticePermission.has_object_permission db user true n)
    ∧ (user.role = .landlord → db.one_unit_per_tenant →
        NoticeViewSet.queryset_contains db user now n
          = NoticePermission.has_object_permission db user true n)
    ∧ (user.role = .tenant → user ∈ db.users → db.unique_user_ids →
        user.is_active = true → n.is_published = true →
        decide (n.publish_date ≤ now) = true →
        (match n.expiry_date with
         | none => true
         | some e => decide (now < e)) = true →
        NoticeViewSet.queryset_contains db user now n
          = NoticePermission.has_object_permission db user true n) := by
  refine ⟨rfl, rfl, rfl, ?_, ?_, ?_⟩
  · rintro (hrole | hrole)
    · have h1 : user.is_tenant = false := by simp [User.is_tenant, hrole]
      have h2 : user.is_landlord = false := by simp [User.is_landlord, hrole]
      have h3 : user.is_caretaker = false := by simp [User.is_caretaker, hrole]
      simp [NoticeViewSet.queryset_contains, NoticePermission.has_object_permission,
        h1, h2, h3]
    · exact caretaker_notice_queryset_vs_perm db user now n hrole
  · intro hrole huniq
    exact landlord_notice_queryset_vs_perm db user now n hrole huniq
  · intro hrole hmem huid hact hpub hdate hexp
    exact tenant_notice_queryset_vs_perm db user now n hrole hmem huid hact hpub hdate hexp

/-- Witness for queryset_agrees_with_object_permission: the tenant clause at
the sample rows and the published sample notice. -/
theorem queryset_agrees_with_object_permission_witness :
    NoticeViewSet.queryset_contains dbW tenantW 5 noticeAllW
      = NoticePermission.has_object_permission dbW tenantW true noticeAllW :=
  (queryset_agrees_with_object_permission dbW tenantW 5 propertyW unitW paymentW
      noticeAllW).2.2.2.2.2 rfl (by decide)
    (by unfold DB.unique_user_ids; decide) rfl rfl (by decide) rfl

/-- C1 counterexample: for the active tenant 3 and an unpublished all-tenants
notice, the object-level check grants read access while the tenant queryset
excludes the notice, so queryset membership and the object-level predicate
disagree. -/
theorem queryset_objperm_disagree_unpublished :
    NoticeViewSet.queryset_contains dbW tenantW 5 noticeUnpublishedW = false
    ∧ NoticePermission.has_object_permission dbW tenantW true noticeUnpublishedW = true := by
  constructor <;> rfl

end AMS
